import Mathlib

/-!
Verification of the layered 2D scene compositor (bedrock).

Shallow embedding of the scene data model (src/bedrock/src/scene.rs), the
quad drawable (src/bedrock/src/quad.rs), the surface lifecycle manager
(src/bedrock/src/surface_wrapper.rs) and the frame compositor's render loop
(src/bedrock/src/resources.rs).

Scalar model: the program stores `f32` coordinates, sizes, colors and blur
radii but never performs floating-point arithmetic on them in the code under
verification — only comparison with zero, `max`/`min` clamping, selection of
defaults, and a saturating-truncating cast to `u32`.  All of these are exact,
so `f32` values are embedded as rationals (`Rat`) and the `f32 -> u32` `as`
cast as truncation toward zero clamped to `[0, 2^32-1]`.
-/

namespace Bedrock

/-- Two-component vector of scalars (glam `Vec2`). -/
structure Vec2 where
  x : Rat
  y : Rat
deriving DecidableEq, Repr

/-- Four-component vector of scalars (glam `Vec4`); clip rectangles are
stored as `(x, y, width, height)` in its four lanes. -/
structure Vec4 where
  x : Rat
  y : Rat
  z : Rat
  w : Rat
deriving DecidableEq, Repr

def Vec2.zero : Vec2 := ⟨0, 0⟩

def Vec4.one : Vec4 := ⟨1, 1, 1, 1⟩

/-- glam swizzle `xy`: the first two lanes of a `Vec4`. -/
def Vec4.xy (v : Vec4) : Vec2 := ⟨v.x, v.y⟩

/-- glam swizzle `zw`: the last two lanes of a `Vec4`. -/
def Vec4.zw (v : Vec4) : Vec2 := ⟨v.z, v.w⟩

/-- Modelled from the spec: the `Quad` content type lives in the
`scene/quad.rs` submodule, which is not among the provided sources.  §3 of
the spec gives it a top-left position, a size, an RGBA color, and blur as an
instance payload field; `Quad::new(top_left, size, color)` starts with zero
blur and `with_background_blur` sets the blur field. -/
structure Quad where
  top_left : Vec2
  size : Vec2
  color : Vec4
  background_blur_radius : Rat
deriving DecidableEq, Repr

def Quad.new (top_left size : Vec2) (color : Vec4) : Quad :=
  ⟨top_left, size, color, 0⟩

def Quad.with_background_blur (q : Quad) (radius : Rat) : Quad :=
  { q with background_blur_radius := radius }

/-- Modelled from the spec: the GPU instance record type `InstancedQuad`
lives in the external `shader` crate.  Per §3 and §4.2 the instance payload
carries the quad's position, size, color and blur fields. -/
structure InstancedQuad where
  position : Vec2
  size : Vec2
  color : Vec4
  background_blur_radius : Rat
deriving DecidableEq, Repr

/-- Modelled from the spec: `Quad::to_instanced` (in the missing
`scene/quad.rs`) converts a scene `Quad` into its GPU instance record,
carrying the payload fields across unchanged. -/
def Quad.to_instanced (q : Quad) : InstancedQuad :=
  ⟨q.top_left, q.size, q.color, q.background_blur_radius⟩

/-- `Text` from src/bedrock/src/scene.rs. -/
structure Text where
  text : String
  bottom_left : Vec2
  size : Rat
  color : Vec4
  bold : Bool
  italic : Bool
  subpixel : Bool
deriving DecidableEq, Repr

/-- `PathCommand` from src/bedrock/src/scene.rs. -/
inductive PathCommand where
  | CubicBezierTo (control1 control2 «to» : Vec2)
  | QuadraticBezierTo (control «to» : Vec2)
  | LineTo («to» : Vec2)
deriving DecidableEq, Repr

/-- `Path` from src/bedrock/src/scene.rs. -/
structure Path where
  fill : Option Vec4
  stroke : Option (Rat × Vec4)
  start : Vec2
  commands : List PathCommand
deriving DecidableEq, Repr

/-- `Sprite` from src/bedrock/src/scene.rs. -/
structure Sprite where
  top_left : Vec2
  size : Vec2
  color : Vec4
  texture : String
deriving DecidableEq, Repr

/-- `Layer` from src/bedrock/src/scene.rs. -/
structure Layer where
  clip : Option Vec4
  background_blur_radius : Rat
  background_color : Option Vec4
  font_name : String
  font_size : Rat
  quads : List Quad
  texts : List Text
  paths : List Path
  sprites : List Sprite
deriving DecidableEq, Repr

/-- `impl Default for Layer` (scene.rs lines 129-143): programmatic
construction defaults, with `background_color = Some(opaque white)`. -/
def Layer.default : Layer :=
  { clip := none
    background_blur_radius := 0
    background_color := some Vec4.one
    font_name := "Courier New"
    font_size := 16
    quads := []
    texts := []
    paths := []
    sprites := [] }

/-- `Scene` from src/bedrock/src/scene.rs. -/
structure Scene where
  layers : List Layer
deriving DecidableEq, Repr

/-- `Scene::new` (scene.rs lines 14-18): one default layer. -/
def Scene.new : Scene := ⟨[Layer.default]⟩

/-- `ShaderConstants` (external `shader` crate); field list per
src/bedrock/src/resources.rs lines 143-147: surface size, atlas size and a
reserved clip lane. -/
structure ShaderConstants where
  surface_size : Vec2
  atlas_size : Vec2
  clip : Vec4
deriving DecidableEq, Repr

/-- The instance list built by `QuadState::draw` for one layer
(src/bedrock/src/quad.rs lines 120-136): a synthetic backdrop instance is
pushed first, but only when the layer has a background color or a nonzero
blur radius; then every explicit `Quad` of the layer follows in order. -/
def quadInstances (layer : Layer) (constants : ShaderConstants) :
    List InstancedQuad :=
  let backdrop : List InstancedQuad :=
    if layer.background_color.isSome ∨ layer.background_blur_radius ≠ 0 then
      [((Quad.new
          ((layer.clip.map Vec4.xy).getD Vec2.zero)
          ((layer.clip.map Vec4.zw).getD constants.surface_size)
          (layer.background_color.getD Vec4.one)).with_background_blur
            layer.background_blur_radius).to_instanced]
    else []
  backdrop ++ layer.quads.map Quad.to_instanced

/-- The draw call and buffer upload recorded by `QuadState::draw`
(src/bedrock/src/quad.rs lines 138-145): write the instance records to the
buffer at offset 0, then `draw(0..6, 0..len)`. -/
structure DrawCall where
  bufferOffset : Nat
  uploaded : List InstancedQuad
  vertexStart : Nat
  vertexCount : Nat
  instanceStart : Nat
  instanceCount : Nat
deriving DecidableEq, Repr

def quadDraw (layer : Layer) (constants : ShaderConstants) : DrawCall :=
  let quads := quadInstances layer constants
  { bufferOffset := 0
    uploaded := quads
    vertexStart := 0
    vertexCount := 6
    instanceStart := 0
    instanceCount := quads.length }

/-! ### Scene accessors and mutators (src/bedrock/src/scene.rs lines 20-104)

`Scene::layer` / `Scene::layer_mut` act on `self.layers.last()`, which the
code unwraps; the embedding returns the `Option` so that "the unwrap cannot
panic" is the provable statement `(s.layer).isSome`.  In-place mutation of
the last layer (`layers.last_mut().unwrap()`) is embedded as rebuilding the
list with its last element replaced; the empty-list case of `modifyLast` is
never reached from a reachable scene, which is exactly the panic-freedom
claim. -/

def modifyLast (f : Layer → Layer) : List Layer → List Layer
  | [] => []
  | [l] => [f l]
  | l :: l' :: ls => l :: modifyLast f (l' :: ls)

def Scene.add_layer (s : Scene) (layer : Layer) : Scene :=
  ⟨s.layers ++ [layer]⟩

def Scene.with_layer (s : Scene) (layer : Layer) : Scene :=
  s.add_layer layer

def Scene.layer (s : Scene) : Option Layer :=
  s.layers.getLast?

def Scene.with_clip (s : Scene) (clip : Vec4) : Scene :=
  ⟨modifyLast (fun l => { l with clip := some clip }) s.layers⟩

def Scene.with_blur (s : Scene) (radius : Rat) : Scene :=
  ⟨modifyLast (fun l => { l with background_blur_radius := radius }) s.layers⟩

def Scene.with_background (s : Scene) (color : Vec4) : Scene :=
  ⟨modifyLast (fun l => { l with background_color := some color }) s.layers⟩

def Scene.with_font (s : Scene) (font_name : String) : Scene :=
  ⟨modifyLast (fun l => { l with font_name := font_name }) s.layers⟩

def Scene.with_font_size (s : Scene) (size : Rat) : Scene :=
  ⟨modifyLast (fun l => { l with font_size := size }) s.layers⟩

def Scene.add_quad (s : Scene) (quad : Quad) : Scene :=
  ⟨modifyLast (fun l => { l with quads := l.quads ++ [quad] }) s.layers⟩

def Scene.add_text (s : Scene) (text : Text) : Scene :=
  ⟨modifyLast (fun l => { l with texts := l.texts ++ [text] }) s.layers⟩

def Scene.add_path (s : Scene) (path : Path) : Scene :=
  ⟨modifyLast (fun l => { l with paths := l.paths ++ [path] }) s.layers⟩

def Scene.add_sprite (s : Scene) (sprite : Sprite) : Scene :=
  ⟨modifyLast (fun l => { l with sprites := l.sprites ++ [sprite] }) s.layers⟩

/-- `Scene::with_quad` and the other `with_*` content builders delegate to
the corresponding `add_*` (scene.rs lines 74-104). -/
def Scene.with_quad (s : Scene) (quad : Quad) : Scene := s.add_quad quad

def Scene.with_text (s : Scene) (text : Text) : Scene := s.add_text text

def Scene.with_path (s : Scene) (path : Path) : Scene := s.add_path path

def Scene.with_sprite (s : Scene) (sprite : Sprite) : Scene := s.add_sprite sprite

/-- The scenes reachable from `Scene::new` by the public mutators. -/
inductive ReachableScene : Scene → Prop where
  | new : ReachableScene Scene.new
  | add_layer {s l} : ReachableScene s → ReachableScene (s.add_layer l)
  | with_clip {s c} : ReachableScene s → ReachableScene (s.with_clip c)
  | with_blur {s r} : ReachableScene s → ReachableScene (s.with_blur r)
  | with_background {s c} : ReachableScene s → ReachableScene (s.with_background c)
  | with_font {s f} : ReachableScene s → ReachableScene (s.with_font f)
  | with_font_size {s r} : ReachableScene s → ReachableScene (s.with_font_size r)
  | add_quad {s q} : ReachableScene s → ReachableScene (s.add_quad q)
  | add_text {s t} : ReachableScene s → ReachableScene (s.add_text t)
  | add_path {s p} : ReachableScene s → ReachableScene (s.add_path p)
  | add_sprite {s p} : ReachableScene s → ReachableScene (s.add_sprite p)

/-! ### Deserialization defaults (src/bedrock/src/scene.rs)

serde fills an omitted field from its field-level default: `#[serde(default)]`
uses the field type's `Default` (`None` for `Option`, `0.0` for `f32`, empty
for `Vec`, `false` for `bool`), and `#[serde(default = "f")]` calls `f`.
An input document is embedded as a record of `Option`s for the defaultable
fields (`none` = field omitted). -/

/-- One `Layer` document: every field of `Layer` is defaultable. -/
structure LayerInput where
  clip : Option (Option Vec4)
  background_blur_radius : Option Rat
  background_color : Option (Option Vec4)
  font_name : Option String
  font_size : Option Rat
  quads : Option (List Quad)
  texts : Option (List Text)
  paths : Option (List Path)
  sprites : Option (List Sprite)
deriving DecidableEq, Repr

/-- A document with every field omitted. -/
def LayerInput.empty : LayerInput :=
  ⟨none, none, none, none, none, none, none, none, none⟩

/-- serde deserialization of `Layer` (scene.rs lines 107-151): field-level
defaults are `None` for `clip`, `0.0` for `background_blur_radius`, `None`
for `background_color`, `default_font()` = "Courier New" for `font_name`,
`default_size()` = 16.0 for `font_size`, and empty lists for the content. -/
def deserializeLayer (input : LayerInput) : Layer :=
  { clip := input.clip.getD none
    background_blur_radius := input.background_blur_radius.getD 0
    background_color := input.background_color.getD none
    font_name := input.font_name.getD "Courier New"
    font_size := input.font_size.getD 16
    quads := input.quads.getD []
    texts := input.texts.getD []
    paths := input.paths.getD []
    sprites := input.sprites.getD [] }

/-- One `Text` document: `text`, `bottom_left`, `size`, `color` are
required; `bold`, `italic`, `subpixel` are defaultable. -/
structure TextInput where
  text : String
  bottom_left : Vec2
  size : Rat
  color : Vec4
  bold : Option Bool
  italic : Option Bool
  subpixel : Option Bool
deriving DecidableEq, Repr

/-- serde deserialization of `Text` (scene.rs lines 227-243): `bold` and
`italic` default to `false`, `subpixel` to `default_subpixel()` = `true`. -/
def deserializeText (input : TextInput) : Text :=
  { text := input.text
    bottom_left := input.bottom_left
    size := input.size
    color := input.color
    bold := input.bold.getD false
    italic := input.italic.getD false
    subpixel := input.subpixel.getD true }

/-! ### Surface lifecycle manager (src/bedrock/src/surface_wrapper.rs)

GPU objects are embedded by their observable parameters: a texture by its
size, sample count and format; the surface by an identity token (so that
"the same underlying surface object is kept" is provable); the universal
bind group by the texture it exposes.  Panics (`unwrap`/`expect`/`panic!`)
are embedded as `none` outcomes. -/

/-- One GPU texture, by its creation parameters (`create_texture`,
surface_wrapper.rs lines 223-247). -/
structure TexDesc where
  width : Nat
  height : Nat
  samples : Nat
  format : Nat
deriving DecidableEq, Repr

/-- The stored surface configuration: the fields the verified code reads
(format, width, height). -/
structure Config where
  format : Nat
  width : Nat
  height : Nat
deriving DecidableEq, Repr

/-- `SurfaceResources` (surface_wrapper.rs lines 9-14): the surface plus
the three auxiliary resources. -/
structure SurfaceRes where
  surfaceId : Nat
  offscreen_texture : TexDesc
  multisampled_texture : TexDesc
  universal_bind_group : TexDesc
deriving DecidableEq, Repr

/-- `SurfaceResources::new` (surface_wrapper.rs lines 17-55): configure the
given surface with the configuration, create the single-sample offscreen
texture and the 4x multisampled texture at the configured size and format,
and build the universal bind group exposing the offscreen texture. -/
def SurfaceRes.new (surfaceId : Nat) (config : Config) : SurfaceRes :=
  let offscreen : TexDesc := ⟨config.width, config.height, 1, config.format⟩
  { surfaceId := surfaceId
    offscreen_texture := offscreen
    multisampled_texture := ⟨config.width, config.height, 4, config.format⟩
    universal_bind_group := offscreen }

/-- `wgpu::SurfaceError`: the error variants of frame acquisition.
`other` stands for any variant not handled by name in the code (the
`Err(e) => panic!` wildcard arm). -/
inductive SurfaceError where
  | timeout
  | outdated
  | lost
  | outOfMemory
  | other
deriving DecidableEq, Repr

/-- Result of one raw `surface.get_current_texture()` call; a successful
acquisition carries an identifying frame token. -/
inductive AcqResult where
  | ok (frameId : Nat)
  | err (e : SurfaceError)
deriving DecidableEq, Repr

/-- Outcome of `SurfaceResources::acquire`: a frame, a panic (the `expect`
after a timeout retry), or a returned `Err`; each records the index of the
next unconsumed raw attempt. -/
inductive AcquireResult where
  | frame (frameId : Nat) («next» : Nat)
  | panicked («next» : Nat)
  | failed (e : SurfaceError) («next» : Nat)
deriving DecidableEq, Repr

/-- `SurfaceResources::acquire` (surface_wrapper.rs lines 57-67), run
against an oracle giving the result of the n-th raw acquisition attempt:
success passes through; a timeout triggers exactly one immediate retry whose
failure panics (`expect`); any other error is returned to the caller. -/
def SurfaceRes.acquire (o : Nat → AcqResult) (i : Nat) : AcquireResult :=
  match o i with
  | .ok f => .frame f (i + 1)
  | .err .timeout =>
    match o (i + 1) with
    | .ok f => .frame f (i + 2)
    | .err _ => .panicked (i + 2)
  | .err e => .failed e (i + 1)

/-- `SurfaceResourcesManager` (surface_wrapper.rs lines 71-74): two-state
machine, Uninitialized = both fields `None`, Ready = both `Some`. -/
structure SurfaceResourcesManager where
  surface_resources : Option SurfaceRes
  config : Option Config
deriving DecidableEq, Repr

def SurfaceResourcesManager.new : SurfaceResourcesManager := ⟨none, none⟩

def SurfaceResourcesManager.offscreen_texture
    (m : SurfaceResourcesManager) : Option TexDesc :=
  m.surface_resources.map SurfaceRes.offscreen_texture

def SurfaceResourcesManager.multisampled_texture
    (m : SurfaceResourcesManager) : Option TexDesc :=
  m.surface_resources.map SurfaceRes.multisampled_texture

def SurfaceResourcesManager.universal_bind_group
    (m : SurfaceResourcesManager) : Option TexDesc :=
  m.surface_resources.map SurfaceRes.universal_bind_group

def SurfaceResourcesManager.format (m : SurfaceResourcesManager) : Option Nat :=
  m.config.map Config.format

def SurfaceResourcesManager.ready (m : SurfaceResourcesManager) : Bool :=
  m.surface_resources.isSome && m.config.isSome

/-- Outcome of `SurfaceResourcesManager::surface_texture`: whether a frame
was obtained or the process panicked, how many resource-recreation cycles
ran, and the index of the next unconsumed raw acquisition attempt. -/
structure FrameOutcome where
  frameId : Option Nat
  fatal : Bool
  recreations : Nat
  attemptsUsed : Nat
deriving DecidableEq, Repr

/-- `SurfaceResourcesManager::surface_texture` (surface_wrapper.rs lines
84-110): acquire; on `Outdated`/`Lost`/`OutOfMemory` take the surface out
of the old resources, rebuild `SurfaceResources::new` from the stored
configuration with that same surface, and retry the acquisition once, any
failure of the retry being fatal; any other returned error is fatal with no
retry.  Returns the outcome together with the manager state afterwards
(`none` embeds the unwrap panic of an Uninitialized manager). -/
def SurfaceResourcesManager.surface_texture
    (m : SurfaceResourcesManager) (o : Nat → AcqResult) :
    Option (FrameOutcome × SurfaceResourcesManager) := do
  let r ← m.surface_resources
  let cfg ← m.config
  match SurfaceRes.acquire o 0 with
  | .frame f n => some (⟨some f, false, 0, n⟩, m)
  | .panicked n => some (⟨none, true, 0, n⟩, m)
  | .failed e n =>
    match e with
    | .outdated | .lost | .outOfMemory =>
      let r' := SurfaceRes.new r.surfaceId cfg
      let m' : SurfaceResourcesManager := ⟨some r', some cfg⟩
      match SurfaceRes.acquire o n with
      | .frame f n' => some (⟨some f, false, 1, n'⟩, m')
      | .panicked n' => some (⟨none, true, 1, n'⟩, m')
      | .failed _ n' => some (⟨none, true, 1, n'⟩, m')
    | _ => some (⟨none, true, 0, n⟩, m)

/-- The window lifecycle events the manager consumes
(surface_wrapper.rs lines 151-219): the init/resumed event (embedded with
the window size, the identity of the surface `create_surface` would return,
and the format of the adapter's default configuration), the resize event,
and anything else. -/
inductive WindowEvent where
  | resumedInit (windowW windowH : Nat) (newSurfaceId : Nat) (defaultFormat : Nat)
  | resized (w h : Nat)
  | otherEvent
deriving DecidableEq, Repr

/-- `SurfaceResourcesManager::handle_event` (surface_wrapper.rs lines
140-220).  Init: clamp the window size to ≥1 in each dimension, create a
fresh surface, take the default configuration, and build the resources.
Resize: clamp the new size to ≥1, update the stored configuration's
width/height, take the surface out of the old resources, and rebuild
`SurfaceResources::new` around that same surface.  Returns the new state and
whether a transition happened; `none` embeds the unwrap panic of a resize
arriving while Uninitialized.  (The sRGB view-format policy of the init arm
touches only fields no claim reads and is not embedded.) -/
def SurfaceResourcesManager.handle_event
    (m : SurfaceResourcesManager) (event : WindowEvent) :
    Option (SurfaceResourcesManager × Bool) :=
  match event with
  | .resumedInit windowW windowH newSurfaceId defaultFormat =>
    let width := max windowW 1
    let height := max windowH 1
    let config : Config := ⟨defaultFormat, width, height⟩
    some (⟨some (SurfaceRes.new newSurfaceId config), some config⟩, true)
  | .resized w h => do
    let cfg ← m.config
    let r ← m.surface_resources
    let cfg' : Config := { cfg with width := max w 1, height := max h 1 }
    some (⟨some (SurfaceRes.new r.surfaceId cfg'), some cfg'⟩, true)
  | .otherEvent => some (m, false)

/-! ### The render loop (src/bedrock/src/resources.rs lines 126-241)

`Resources::render` walks the scene's layers in order and, for every
registered drawable, refreshes the backdrop texture, opens a render pass and
optionally restricts it with a scissor rectangle.  The embedding records,
for each (layer, drawable) iteration in order, the backdrop operation, the
color-attachment load/store operations and the scissor rectangle set —
threading the `first` flag exactly as the code does. -/

/-- Rust's saturating-truncating `f32 as u32` cast, on the exactly-
represented scalars: truncate toward zero, clamp to `[0, 2^32-1]`.
(Truncation toward zero and `Int.toNat` of the floor agree on every
negative value: both give 0 after the lower clamp.) -/
def ratToU32 (q : Rat) : Nat :=
  min (Rat.floor q).toNat (2 ^ 32 - 1)

/-- Arguments of `RenderPass::set_scissor_rect`. -/
structure ScissorRect where
  x : Nat
  y : Nat
  width : Nat
  height : Nat
deriving DecidableEq, Repr

/-- The scissor restriction applied for one layer
(resources.rs lines 216-223): only when the layer has a clip, with origin
`(clip.x.max(0.0) as u32, clip.y.max(0.0) as u32)` and extent
`((clip.z as u32).min(frame_width), (clip.w as u32).min(frame_height))`. -/
def scissorOf (layer : Layer) (frameW frameH : Nat) : Option ScissorRect :=
  layer.clip.map fun clip =>
    { x := ratToU32 (max clip.x 0)
      y := ratToU32 (max clip.y 0)
      width := min (ratToU32 clip.z) frameW
      height := min (ratToU32 clip.w) frameH }

/-- The backdrop-texture refresh preceding one render pass
(resources.rs lines 157-189). -/
inductive BackdropOp where
  | clear
  | copyFrame
deriving DecidableEq, Repr

/-- The color attachment's load operation (resources.rs lines 191-202). -/
inductive LoadOperation where
  | clearWhite
  | load
deriving DecidableEq, Repr

/-- The color attachment's store operation. -/
inductive StoreOperation where
  | store
  | discard
deriving DecidableEq, Repr

/-- What one (layer, drawable) iteration of the render loop records. -/
structure PassDesc where
  backdrop : BackdropOp
  loadOperation : LoadOperation
  storeOperation : StoreOperation
  scissor : Option ScissorRect
deriving DecidableEq, Repr

/-- One iteration of the inner drawable loop (resources.rs lines 156-233):
clear the backdrop on the very first iteration of the frame, else copy the
frame texture into it; clear the attachment to opaque white on the first
iteration, else load; always store; apply the layer's scissor if any. -/
def mkPass (layer : Layer) (frameW frameH : Nat) (first : Bool) : PassDesc :=
  { backdrop := if first then .clear else .copyFrame
    loadOperation := if first then .clearWhite else .load
    storeOperation := .store
    scissor := scissorOf layer frameW frameH }

/-- The passes recorded for one layer: one per registered drawable, in
order, the `first` flag being lowered after each iteration. -/
def kindPasses (layer : Layer) (frameW frameH : Nat) :
    Nat → Bool → List PassDesc
  | 0, _ => []
  | n + 1, first => mkPass layer frameW frameH first ::
      kindPasses layer frameW frameH n false

/-- The passes recorded for a list of layers with `numDrawables` registered
drawables, threading the `first` flag across layers as the code's `let mut
first = true` does: it stays raised across a layer only if that layer ran
no drawable iterations. -/
def passesFrom (layers : List Layer) (numDrawables frameW frameH : Nat)
    (first : Bool) : List PassDesc :=
  match layers with
  | [] => []
  | l :: ls =>
    kindPasses l frameW frameH numDrawables first ++
      passesFrom ls numDrawables frameW frameH (first && numDrawables == 0)

/-- The full per-frame pass trace of `Resources::render`
(resources.rs line 149: `let mut first = true;`). -/
def renderPasses (scene : Scene) (numDrawables frameW frameH : Nat) :
    List PassDesc :=
  passesFrom scene.layers numDrawables frameW frameH true

/-! ### Concrete example inputs, used to instantiate the theorems below. -/

/-- Push constants for an 800×600 surface. -/
def exConstants : ShaderConstants := ⟨⟨800, 600⟩, ⟨1024, 1024⟩, ⟨0, 0, 0, 0⟩⟩

/-- A layer whose background color is explicitly absent (and blur 0). -/
def transparentLayer : Layer := { Layer.default with background_color := none }

/-- The default layer with the clip rectangle (100, 100, 200, 150). -/
def clipLayer : Layer := { Layer.default with clip := some ⟨100, 100, 200, 150⟩ }

/-- A `Text` document with every defaultable field omitted. -/
def exTextInput : TextInput := ⟨"hello", ⟨0, 0⟩, 12, Vec4.one, none, none, none⟩

/-- An example quad. -/
def exQuad : Quad := Quad.new ⟨10, 10⟩ ⟨20, 20⟩ ⟨1, 0, 0, 1⟩

/-- A Ready manager: surface object 7, configuration format 5, 800×600. -/
def m800 : SurfaceResourcesManager :=
  ⟨some (SurfaceRes.new 7 ⟨5, 800, 600⟩), some ⟨5, 800, 600⟩⟩

/-- An acquisition oracle that always reports an unrecognized error. -/
def oracleOtherErr : Nat → AcqResult := fun _ => .err .other

/-- A two-layer scene. -/
def twoLayerScene : Scene := Scene.new.add_layer Layer.default

/-! ## Theorems -/

/-- Claim C7: a freshly constructed `Scene` contains exactly one `Layer`,
holding the default values, and the quad-kind instance list built for it is
exactly one backdrop instance with position `(0, 0)`, size equal to the full
surface size from the push constants, the default background color (RGBA
`(1, 1, 1, 1)`, i.e. fully visible white), and blur `0`. -/
theorem fresh_scene_single_backdrop :
    Scene.new.layers = [Layer.default] ∧
    ∀ constants : ShaderConstants,
      quadInstances Layer.default constants =
        [{ position := Vec2.zero, size := constants.surface_size,
           color := Vec4.one, background_blur_radius := 0 }] :=
  ⟨rfl, fun _ => rfl⟩

/-- Claim C8: every quad-kind draw call uploads its instance records to the
buffer at offset 0 and issues exactly one instanced draw of the vertex range
`0..6` (6 vertices per instance) with instance count equal to the length of
the uploaded instance list; an empty list yields a draw of 0 instances. -/
theorem quad_draw_call_shape (layer : Layer) (constants : ShaderConstants) :
    (quadDraw layer constants).bufferOffset = 0 ∧
    (quadDraw layer constants).uploaded = quadInstances layer constants ∧
    (quadDraw layer constants).vertexStart = 0 ∧
    (quadDraw layer constants).vertexCount = 6 ∧
    (quadDraw layer constants).instanceStart = 0 ∧
    (quadDraw layer constants).instanceCount =
      (quadInstances layer constants).length ∧
    (quadInstances layer constants = [] →
      (quadDraw layer constants).instanceCount = 0) := by
  refine ⟨rfl, rfl, rfl, rfl, rfl, rfl, fun h => ?_⟩
  simp [quadDraw, h]

/-- Witness for `quad_draw_call_shape` at a layer whose instance list is
empty (no background color, zero blur, no quads). -/
theorem quad_draw_call_shape_applied :
    (quadDraw transparentLayer exConstants).instanceCount = 0 :=
  (quad_draw_call_shape transparentLayer exConstants).2.2.2.2.2.2 (by decide)

/-- Counterexample to claim C1: for a layer whose background color is
absent and whose blur radius is zero, `QuadState::draw` builds no synthetic
backdrop instance at all — the instance list is empty, so its length is not
`1 + (number of Quads)` as the claim requires. -/
theorem quad_backdrop_missing_for_transparent_layer :
    quadInstances transparentLayer exConstants = [] ∧
    (quadInstances transparentLayer exConstants).length ≠
      1 + transparentLayer.quads.length := by
  constructor
  · decide
  · decide

/-- Claim C1 as amended: the synthetic backdrop instance is prepended
exactly when the layer has a background color or a nonzero background blur
radius.  When prepended, its position and size equal the clip rectangle's
`(x, y)` and `(width, height)` if a clip is present and `(0, 0)` and the
full surface size from the push constants otherwise, its color is the
layer's background color defaulting to RGBA `(1, 1, 1, 1)` when absent, and
its blur is the layer's blur radius; the list then continues with the
layer's quads in order and has length `1 + (number of Quads)`.  When the
background color is absent and the blur is zero, no backdrop is prepended
and the list is exactly the layer's quads. -/
theorem quad_backdrop_conditional (layer : Layer) (constants : ShaderConstants) :
    (layer.background_color.isSome ∨ layer.background_blur_radius ≠ 0 →
      quadInstances layer constants =
        { position := (layer.clip.map Vec4.xy).getD Vec2.zero,
          size := (layer.clip.map Vec4.zw).getD constants.surface_size,
          color := layer.background_color.getD Vec4.one,
          background_blur_radius := layer.background_blur_radius } ::
          layer.quads.map Quad.to_instanced ∧
      (quadInstances layer constants).length = 1 + layer.quads.length) ∧
    (layer.background_color = none ∧ layer.background_blur_radius = 0 →
      quadInstances layer constants = layer.quads.map Quad.to_instanced ∧
      (quadInstances layer constants).length = layer.quads.length) := by
  constructor
  · intro h
    have : quadInstances layer constants =
        { position := (layer.clip.map Vec4.xy).getD Vec2.zero,
          size := (layer.clip.map Vec4.zw).getD constants.surface_size,
          color := layer.background_color.getD Vec4.one,
          background_blur_radius := layer.background_blur_radius } ::
          layer.quads.map Quad.to_instanced := by
      simp only [quadInstances, if_pos h]
      rfl
    refine ⟨this, ?_⟩
    simp [this, Nat.add_comm]
  · rintro ⟨hc, hb⟩
    have : quadInstances layer constants = layer.quads.map Quad.to_instanced := by
      simp [quadInstances, hc, hb]
    simp [this]

/-- Witness for `quad_backdrop_conditional` at the default layer (background
color present) on an 800×600 surface. -/
theorem quad_backdrop_conditional_applied :
    quadInstances Layer.default exConstants =
      [{ position := Vec2.zero, size := ⟨800, 600⟩,
         color := Vec4.one, background_blur_radius := 0 }] :=
  ((quad_backdrop_conditional Layer.default exConstants).1 (by decide)).1

/-- Counterexample to claim C2: deserializing a `Layer` with the
`background_color` field omitted yields `None` (the field-level serde
default of an `Option`), not the documented default background color RGBA
`(1, 1, 1, 1)`. -/
theorem deserialize_background_default_is_none :
    (deserializeLayer LayerInput.empty).background_color = none ∧
    (deserializeLayer LayerInput.empty).background_color ≠ some Vec4.one := by
  constructor
  · rfl
  · decide

/-- Claim C2 as amended: deserialization fills in, for each omitted field,
font name "Courier New", font size 16, background blur radius 0, clip none,
and subpixel text rendering on; the background color, however, defaults to
`None` (no background), not to the color RGBA `(1, 1, 1, 1)` — that value is
only the `Default` of programmatic `Layer` construction. -/
theorem deserialize_defaults (linput : LayerInput) (tinput : TextInput) :
    (linput.font_name = none →
      (deserializeLayer linput).font_name = "Courier New") ∧
    (linput.font_size = none → (deserializeLayer linput).font_size = 16) ∧
    (linput.background_blur_radius = none →
      (deserializeLayer linput).background_blur_radius = 0) ∧
    (linput.clip = none → (deserializeLayer linput).clip = none) ∧
    (linput.background_color = none →
      (deserializeLayer linput).background_color = none) ∧
    (tinput.subpixel = none → (deserializeText tinput).subpixel = true) ∧
    (tinput.bold = none → (deserializeText tinput).bold = false) ∧
    (tinput.italic = none → (deserializeText tinput).italic = false) := by
  refine ⟨fun h => ?_, fun h => ?_, fun h => ?_, fun h => ?_, fun h => ?_,
    fun h => ?_, fun h => ?_, fun h => ?_⟩ <;>
    simp [deserializeLayer, deserializeText, h]

/-- Witness for `deserialize_defaults` at the all-fields-omitted documents. -/
theorem deserialize_defaults_applied :
    (deserializeLayer LayerInput.empty).font_name = "Courier New" ∧
    (deserializeText exTextInput).subpixel = true :=
  ⟨(deserialize_defaults LayerInput.empty exTextInput).1 rfl,
   (deserialize_defaults LayerInput.empty exTextInput).2.2.2.2.2.1 rfl⟩

/-- Rebuilding a list with its last element replaced never empties it. -/
theorem modifyLast_ne_nil (f : Layer → Layer) :
    ∀ {xs : List Layer}, xs ≠ [] → modifyLast f xs ≠ [] := by
  intro xs h
  match xs with
  | [] => exact absurd rfl h
  | [l] => simp [modifyLast]
  | l :: l' :: ls => simp [modifyLast]

/-- Claim C10: every public `Scene` mutator preserves non-emptiness of the
layer list, so for every scene reachable from `Scene::new` the
last-layer accessor `Scene::layer` (and hence `layer_mut`) finds a layer —
the `unwrap` inside it cannot panic. -/
theorem scene_mutators_preserve_nonempty (s : Scene)
    (h : ReachableScene s) :
    s.layers ≠ [] ∧ (Scene.layer s).isSome := by
  have hne : s.layers ≠ [] := by
    induction h with
    | new => simp [Scene.new]
    | add_layer _ ih => simp [Scene.add_layer]
    | with_clip _ ih => exact modifyLast_ne_nil _ ih
    | with_blur _ ih => exact modifyLast_ne_nil _ ih
    | with_background _ ih => exact modifyLast_ne_nil _ ih
    | with_font _ ih => exact modifyLast_ne_nil _ ih
    | with_font_size _ ih => exact modifyLast_ne_nil _ ih
    | add_quad _ ih => exact modifyLast_ne_nil _ ih
    | add_text _ ih => exact modifyLast_ne_nil _ ih
    | add_path _ ih => exact modifyLast_ne_nil _ ih
    | add_sprite _ ih => exact modifyLast_ne_nil _ ih
  exact ⟨hne, by simpa [Scene.layer] using List.getLast?_isSome.mpr hne⟩

/-- Witness for `scene_mutators_preserve_nonempty` at a scene built by a
composite mutator sequence. -/
theorem scene_mutators_preserve_nonempty_applied :
    ((Scene.new.with_background Vec4.one).add_quad exQuad).layers ≠ [] ∧
    (Scene.layer ((Scene.new.with_background Vec4.one).add_quad exQuad)).isSome :=
  scene_mutators_preserve_nonempty _
    (ReachableScene.add_quad (ReachableScene.with_background ReachableScene.new))

/-- Claim C9: while the manager is Ready, the accessors for the backdrop
(offscreen) texture, the multisampled texture, the universal bind group and
the surface pixel format all return their values; while Uninitialized
(no surface resources, no configuration) every one of them hits the
`unwrap` panic — embedded as `none` — rather than returning a default. -/
theorem accessors_require_ready (m : SurfaceResourcesManager) :
    (m.ready = true →
      m.offscreen_texture.isSome = true ∧
      m.multisampled_texture.isSome = true ∧
      m.universal_bind_group.isSome = true ∧
      (SurfaceResourcesManager.format m).isSome = true) ∧
    (m.surface_resources = none ∧ m.config = none →
      m.offscreen_texture = none ∧
      m.multisampled_texture = none ∧
      m.universal_bind_group = none ∧
      SurfaceResourcesManager.format m = none) := by
  constructor
  · intro h
    simp only [SurfaceResourcesManager.ready, Bool.and_eq_true] at h
    obtain ⟨hs, hc⟩ := h
    simp [SurfaceResourcesManager.offscreen_texture,
      SurfaceResourcesManager.multisampled_texture,
      SurfaceResourcesManager.universal_bind_group,
      SurfaceResourcesManager.format, Option.isSome_map, hs, hc]
  · rintro ⟨hs, hc⟩
    simp [SurfaceResourcesManager.offscreen_texture,
      SurfaceResourcesManager.multisampled_texture,
      SurfaceResourcesManager.universal_bind_group,
      SurfaceResourcesManager.format, hs, hc]

/-- Witness for `accessors_require_ready`: the fresh manager answers `none`
(panic) everywhere, and the Ready manager `m800` answers everywhere. -/
theorem accessors_require_ready_applied :
    (SurfaceResourcesManager.new.offscreen_texture = none ∧
      SurfaceResourcesManager.new.multisampled_texture = none ∧
      SurfaceResourcesManager.new.universal_bind_group = none ∧
      SurfaceResourcesManager.format SurfaceResourcesManager.new = none) ∧
    (m800.offscreen_texture.isSome = true ∧
      m800.multisampled_texture.isSome = true ∧
      m800.universal_bind_group.isSome = true ∧
      (SurfaceResourcesManager.format m800).isSome = true) :=
  ⟨(accessors_require_ready SurfaceResourcesManager.new).2 ⟨rfl, rfl⟩,
   (accessors_require_ready m800).1 (by decide)⟩

/-- Claim C5: a resize event received while Ready stores
`max(w, 1) × max(h, 1)` into the configuration and rebuilds
`SurfaceResources` around the *same* surface object: the offscreen texture
(1 sample), the multisampled texture (4 samples) and the universal bind
group are recreated at the clamped size with the stored format, while the
surface identity is unchanged. -/
theorem resize_recreates_aux_resources (m : SurfaceResourcesManager)
    (cfg : Config) (r : SurfaceRes) (w h : Nat)
    (hc : m.config = some cfg) (hr : m.surface_resources = some r) :
    m.handle_event (.resized w h) =
      some (⟨some (SurfaceRes.new r.surfaceId
          ⟨cfg.format, max w 1, max h 1⟩),
        some ⟨cfg.format, max w 1, max h 1⟩⟩, true) ∧
    (SurfaceRes.new r.surfaceId ⟨cfg.format, max w 1, max h 1⟩).surfaceId
      = r.surfaceId ∧
    (SurfaceRes.new r.surfaceId ⟨cfg.format, max w 1, max h 1⟩).offscreen_texture
      = ⟨max w 1, max h 1, 1, cfg.format⟩ ∧
    (SurfaceRes.new r.surfaceId ⟨cfg.format, max w 1, max h 1⟩).multisampled_texture
      = ⟨max w 1, max h 1, 4, cfg.format⟩ ∧
    (SurfaceRes.new r.surfaceId ⟨cfg.format, max w 1, max h 1⟩).universal_bind_group
      = ⟨max w 1, max h 1, 1, cfg.format⟩ := by
  refine ⟨?_, rfl, rfl, rfl, rfl⟩
  simp [SurfaceResourcesManager.handle_event, hc, hr]

/-- Witness for `resize_recreates_aux_resources`: an 800×600 Ready manager
resized to (0, 0) ends with a 1×1 stored configuration and 1×1 auxiliary
textures on the same surface object. -/
theorem resize_recreates_aux_resources_applied :
    m800.handle_event (.resized 0 0) =
      some (⟨some (SurfaceRes.new 7 ⟨5, 1, 1⟩), some ⟨5, 1, 1⟩⟩, true) ∧
    (SurfaceRes.new 7 ⟨5, 1, 1⟩).offscreen_texture = ⟨1, 1, 1, 5⟩ := by
  have := resize_recreates_aux_resources m800 ⟨5, 800, 600⟩
    (SurfaceRes.new 7 ⟨5, 800, 600⟩) 0 0 rfl rfl
  exact ⟨this.1, rfl⟩

/-- Claim C4: frame acquisition splits three ways.  A transient timeout is
retried exactly once inside `acquire` — success on the retry yields the
frame with no resource recreation, failure panics (fatal), in both cases
exactly two raw attempts are consumed and the manager is untouched.  An
`Outdated`/`Lost`/`OutOfMemory` error makes `surface_texture` rebuild
`SurfaceResources::new` from the stored configuration around the same
surface object (exactly one recreation) and call `acquire` exactly once
more; if that retry does not produce a frame (it panics internally or
returns any error) the outcome is fatal.  An unrecognized error is fatal
immediately: no retry, no recreation. -/
theorem acquisition_retry_policy (m : SurfaceResourcesManager)
    (r : SurfaceRes) (cfg : Config) (o : Nat → AcqResult)
    (hr : m.surface_resources = some r) (hc : m.config = some cfg) :
    (o 0 = .err .timeout →
      (∀ f, o 1 = .ok f →
        m.surface_texture o = some (⟨some f, false, 0, 2⟩, m)) ∧
      (∀ e, o 1 = .err e →
        m.surface_texture o = some (⟨none, true, 0, 2⟩, m))) ∧
    (∀ e, (e = .outdated ∨ e = .lost ∨ e = .outOfMemory) → o 0 = .err e →
      (∀ f n, SurfaceRes.acquire o 1 = .frame f n →
        m.surface_texture o = some (⟨some f, false, 1, n⟩,
          ⟨some (SurfaceRes.new r.surfaceId cfg), some cfg⟩)) ∧
      (∀ n, SurfaceRes.acquire o 1 = .panicked n →
        m.surface_texture o = some (⟨none, true, 1, n⟩,
          ⟨some (SurfaceRes.new r.surfaceId cfg), some cfg⟩)) ∧
      (∀ e' n, SurfaceRes.acquire o 1 = .failed e' n →
        m.surface_texture o = some (⟨none, true, 1, n⟩,
          ⟨some (SurfaceRes.new r.surfaceId cfg), some cfg⟩))) ∧
    (o 0 = .err .other →
      m.surface_texture o = some (⟨none, true, 0, 1⟩, m)) := by
  have hm : m = ⟨some r, some cfg⟩ := by
    cases m
    simp_all
  subst hm
  refine ⟨fun h0 => ⟨fun f h1 => ?_, fun e h1 => ?_⟩,
    fun e he h0 => ?_, fun h0 => ?_⟩
  · simp [SurfaceResourcesManager.surface_texture, SurfaceRes.acquire, h0, h1]
  · simp [SurfaceResourcesManager.surface_texture, SurfaceRes.acquire, h0, h1]
  · have hacq : SurfaceRes.acquire o 0 = .failed e 1 := by
      rcases he with rfl | rfl | rfl <;> simp [SurfaceRes.acquire, h0]
    refine ⟨fun f n h1 => ?_, fun n h1 => ?_, fun e' n h1 => ?_⟩ <;>
      rcases he with rfl | rfl | rfl <;>
      simp [SurfaceResourcesManager.surface_texture, hacq, h1]
  · simp [SurfaceResourcesManager.surface_texture, SurfaceRes.acquire, h0]

/-- Witness for `acquisition_retry_policy`: on a Ready manager whose every
raw acquisition attempt reports an unrecognized error, `surface_texture` is
fatal after exactly one attempt with no recreation. -/
theorem acquisition_retry_policy_applied :
    m800.surface_texture oracleOtherErr = some (⟨none, true, 0, 1⟩, m800) :=
  (acquisition_retry_policy m800 (SurfaceRes.new 7 ⟨5, 800, 600⟩)
    ⟨5, 800, 600⟩ oracleOtherErr rfl rfl).2.2 rfl

theorem kindPasses_length (l : Layer) (fw fh : Nat) :
    ∀ (n : Nat) (first : Bool), (kindPasses l fw fh n first).length = n := by
  intro n
  induction n with
  | zero => intro first; rfl
  | succ n ih => intro first; simp [kindPasses, ih]

/-- Within one layer, the k-th inner iteration sees the `first` flag only
at k = 0. -/
theorem kindPasses_getElem (l : Layer) (fw fh : Nat) :
    ∀ (n : Nat) (first : Bool) (k : Nat)
      (h : k < (kindPasses l fw fh n first).length),
      (kindPasses l fw fh n first)[k] =
        mkPass l fw fh (first && decide (k = 0)) := by
  intro n
  induction n with
  | zero => intro first k h; simp [kindPasses] at h
  | succ n ih =>
    intro first k h
    cases k with
    | zero => simp [kindPasses]
    | succ k =>
      have h0 : k < (kindPasses l fw fh n false).length := by
        have := h
        simp only [kindPasses, List.length_cons] at this
        omega
      calc (kindPasses l fw fh (n + 1) first)[k + 1]
          = (kindPasses l fw fh n false)[k] := by
            simp [kindPasses]
        _ = mkPass l fw fh (false && decide (k = 0)) := ih false k h0
        _ = mkPass l fw fh (first && decide (k + 1 = 0)) := by simp

/-- Every element of the pass trace is the pass of one of the scene's
layers, with the `first` flag raised only at flat index 0. -/
theorem passesFrom_getElem :
    ∀ (layers : List Layer) (n fw fh : Nat) (first : Bool) (k : Nat)
      (h : k < (passesFrom layers n fw fh first).length),
      ∃ l, l ∈ layers ∧ (passesFrom layers n fw fh first)[k] =
        mkPass l fw fh (first && decide (k = 0)) := by
  intro layers
  induction layers with
  | nil => intro n fw fh first k h; simp [passesFrom] at h
  | cons l ls ih =>
    intro n fw fh first k h
    have hlen : (kindPasses l fw fh n first).length = n :=
      kindPasses_length l fw fh n first
    by_cases hk : k < (kindPasses l fw fh n first).length
    · refine ⟨l, by simp, ?_⟩
      calc (passesFrom (l :: ls) n fw fh first)[k]
          = (kindPasses l fw fh n first)[k] := by
            simp only [passesFrom]
            exact List.getElem_append_left hk
        _ = mkPass l fw fh (first && decide (k = 0)) :=
            kindPasses_getElem l fw fh n first k hk
    · have hge : (kindPasses l fw fh n first).length ≤ k := Nat.le_of_not_lt hk
      have htail : k - (kindPasses l fw fh n first).length <
          (passesFrom ls n fw fh (first && n == 0)).length := by
        have := h
        simp only [passesFrom, List.length_append] at this
        omega
      obtain ⟨l2, hmem, heq⟩ := ih n fw fh (first && n == 0)
        (k - (kindPasses l fw fh n first).length) htail
      refine ⟨l2, by simp [hmem], ?_⟩
      have happ : (passesFrom (l :: ls) n fw fh first)[k] =
          (passesFrom ls n fw fh (first && n == 0))[
            k - (kindPasses l fw fh n first).length] := by
        simp only [passesFrom]
        exact List.getElem_append_right hge
      rw [happ, heq]
      congr 1
      -- ((first && n == 0) && decide (k - n = 0)) = (first && decide (k = 0))
      rw [hlen] at hge
      cases n with
      | zero => simp [hlen]
      | succ n =>
        have hk0 : decide (k = 0) = false := by
          simp only [decide_eq_false_iff_not]
          omega
        have hk1 : (Nat.succ n == 0) = false := by simp
        simp [hk0, hk1]

/-- Claim C3: in the flat (layer-major, then drawable-kind) trace of
`Resources::render`, the backdrop texture is cleared to empty exactly at
the very first drawable invocation of the frame — flat index 0, i.e. first
layer, first kind — and on every other invocation the presentable frame
texture's contents are copied into the backdrop texture instead; likewise
the color attachment's load operation is clear-to-white exactly at that
first invocation and load everywhere else, and the store operation is
always store. -/
theorem backdrop_refresh_and_load_policy (scene : Scene)
    (n fw fh k : Nat) (h : k < (renderPasses scene n fw fh).length) :
    ((renderPasses scene n fw fh)[k]).backdrop =
      (if k = 0 then BackdropOp.clear else BackdropOp.copyFrame) ∧
    ((renderPasses scene n fw fh)[k]).loadOperation =
      (if k = 0 then LoadOperation.clearWhite else LoadOperation.load) ∧
    ((renderPasses scene n fw fh)[k]).storeOperation = StoreOperation.store := by
  obtain ⟨l, _, heq⟩ := passesFrom_getElem scene.layers n fw fh true k h
  have heq2 : (renderPasses scene n fw fh)[k] =
      mkPass l fw fh (true && decide (k = 0)) := heq
  rw [heq2]
  by_cases hk : k = 0 <;> simp [mkPass, hk]

/-- Witness for `backdrop_refresh_and_load_policy`: the second invocation
(flat index 1: first layer, second drawable kind) of a two-layer scene with
two registered drawables copies the frame into the backdrop and loads. -/
theorem backdrop_refresh_and_load_policy_applied :
    ((renderPasses twoLayerScene 2 800 600).get ⟨1, by decide⟩).backdrop =
      BackdropOp.copyFrame ∧
    ((renderPasses twoLayerScene 2 800 600).get ⟨1, by decide⟩).loadOperation =
      LoadOperation.load ∧
    ((renderPasses twoLayerScene 2 800 600).get ⟨1, by decide⟩).storeOperation =
      StoreOperation.store := by
  have := backdrop_refresh_and_load_policy twoLayerScene 2 800 600 1 (by decide)
  simpa using this

/-- Claim C6: for a layer with clip rectangle `(x, y, w, h)`, every one of
that layer's render passes is restricted to the scissor rectangle whose
origin is `(x, y)` clamped to ≥ 0 (then converted to `u32`) and whose
extent is the clip's width and height (converted to `u32`) clamped to not
exceed the frame's width and height; for a layer with no clip, no scissor
restriction is applied to any of its passes. -/
theorem clip_scissor_policy (l : Layer) (fw fh : Nat) :
    (∀ x y z w, l.clip = some ⟨x, y, z, w⟩ →
      scissorOf l fw fh = some ⟨ratToU32 (max x 0), ratToU32 (max y 0),
        min (ratToU32 z) fw, min (ratToU32 w) fh⟩) ∧
    (l.clip = none → scissorOf l fw fh = none) ∧
    (∀ n first p, p ∈ kindPasses l fw fh n first →
      p.scissor = scissorOf l fw fh) := by
  refine ⟨fun x y z w hclip => ?_, fun hclip => ?_, fun n => ?_⟩
  · simp [scissorOf, hclip]
  · simp [scissorOf, hclip]
  · induction n with
    | zero => intro first p hp; simp [kindPasses] at hp
    | succ n ih =>
      intro first p hp
      simp only [kindPasses, List.mem_cons] at hp
      rcases hp with rfl | hp
      · rfl
      · exact ih false p hp

/-- Witness for `clip_scissor_policy`: the layer clipped to
`(100, 100, 200, 150)` on an 800×600 frame is restricted to exactly that
rectangle, and its passes carry it. -/
theorem clip_scissor_policy_applied :
    scissorOf clipLayer 800 600 = some ⟨100, 100, 200, 150⟩ ∧
    ∀ p, p ∈ kindPasses clipLayer 800 600 2 true →
      p.scissor = some ⟨100, 100, 200, 150⟩ := by
  have h1 := (clip_scissor_policy clipLayer 800 600).1 100 100 200 150 rfl
  have heval : scissorOf clipLayer 800 600 = some ⟨100, 100, 200, 150⟩ := by
    rw [h1]
    decide
  refine ⟨heval, fun p hp => ?_⟩
  rw [(clip_scissor_policy clipLayer 800 600).2.2 2 true p hp, heval]

end Bedrock
